import Mathlib

/-!
Verification of the resume-analysis logic of the Ai-Quick-Screener
repository, shallowly embedded in Lean 4.

Embedded from the source:
  * `src/resume_analytics/analyzer.py` — the `ResumeAnalyzer` class of the
    Flask prototype: `analyze_resume`, `_extract_skills`,
    `_analyze_experience`, `_calculate_profile_score`,
    `_generate_suggestions`.
  * `src/app.py` — `_extract_text_from_file`, `_validate_document_type`
    and the MIME constants of the Streamlit front end.

The Streamlit engine `utils/resume_analyzer.py` (document classifier and
keyword matcher) is imported by `src/app.py` but its code is not present in
the repository snapshot; definitions for it are modelled from the spec and
say so in their doc comment.

Conventions: Python floats are idealised as `ℚ`; Python's `round`
(round-half-to-even) is `pyRound`; a spaCy document is a list of tokens,
each carrying its text and its `like_num` flag, plus a sentence count
supplied by the (external) NLP pipeline; `datetime.now()` is an explicit
clock argument.
-/

namespace AiQuickScreener

/-- `leadsWith needle hay` : `needle` occurs at the very front of `hay`. -/
def leadsWith : List Char → List Char → Bool
  | [], _ => true
  | _ :: _, [] => false
  | a :: as, b :: bs => a = b && leadsWith as bs

/-- `occursIn needle hay` : `needle` occurs contiguously somewhere in `hay`
(Python's `in` operator on strings). -/
def occursIn (needle : List Char) : List Char → Bool
  | [] => leadsWith needle []
  | c :: rest => leadsWith needle (c :: rest) || occursIn needle rest

/-- Python's `needle in hay` substring test on strings. -/
def strOccursIn (needle hay : String) : Bool :=
  occursIn needle.data hay.data

/-- Python's built-in `round` on an exact rational: round to the nearest
integer, ties going to the even integer (banker's rounding). -/
def pyRound (q : ℚ) : ℤ :=
  if q - ⌊q⌋ < 1 / 2 then ⌊q⌋
  else if 1 / 2 < q - ⌊q⌋ then ⌊q⌋ + 1
  else if ⌊q⌋ % 2 = 0 then ⌊q⌋ else ⌊q⌋ + 1

/-- Word-count contribution of `_calculate_profile_score`
(`src/resume_analytics/analyzer.py:89-93`): 25 points from 300 words,
`(word_count / 300) * 25` below that. -/
def wordComponent (word_count : ℕ) : ℚ :=
  if 300 ≤ word_count then 25 else ((word_count : ℚ) / 300) * 25

/-- Skills contribution of `_calculate_profile_score`
(`src/resume_analytics/analyzer.py:95-99`): 35 points from 8 skills,
`(skills_count / 8) * 35` below that. -/
def skillComponent (skills_count : ℕ) : ℚ :=
  if 8 ≤ skills_count then 35 else ((skills_count : ℚ) / 8) * 35

/-- Experience contribution of `_calculate_profile_score`
(`src/resume_analytics/analyzer.py:101-105`): 40 points from 5 years,
`(experience_years / 5) * 40` below that. -/
def expComponent (experience_years : ℕ) : ℚ :=
  if 5 ≤ experience_years then 40 else ((experience_years : ℚ) / 5) * 40

/-- `ResumeAnalyzer._calculate_profile_score`
(`src/resume_analytics/analyzer.py:85-107`): sum of the three components,
rounded with Python's `round`, then `min(·, 100)`. The `sentence_count`
argument is received but never used, exactly as in the source. -/
def calculateProfileScore
    (word_count sentence_count skills_count experience_years : ℕ) : ℤ :=
  min (pyRound (wordComponent word_count + skillComponent skills_count +
    expComponent experience_years)) 100

/-- The aggregated score as the spec phrases it (claim-side definition for
the refinement check): each component written as an explicit `min` with its
cap, the total rounded and clamped to the interval `[0, 100]`. -/
def specAtsScore (word_count skills_count experience_years : ℕ) : ℤ :=
  max 0 (min (pyRound
    (min (((word_count : ℚ) / 300) * 25) 25 +
     min (((skills_count : ℚ) / 8) * 35) 35 +
     min (((experience_years : ℚ) / 5) * 40) 40)) 100)

/-- A spaCy token as the analyzer consumes it: its surface text and the
`like_num` flag computed by the (external) pipeline. -/
structure Token where
  text : String
  like_num : Bool
deriving DecidableEq

/-- A spaCy document, as far as the analyzer reads it: its token sequence. -/
abbrev Doc := List Token

/-- Python's `str.split()` with no argument: maximal runs of
non-whitespace characters; `len(resume_text.split())` is the word count at
`src/resume_analytics/analyzer.py:21`. -/
def splitWords (s : String) : List String :=
  (s.split Char.isWhitespace).filter (fun w => w ≠ "")

/-- The `tech_skills` set of `_extract_skills`
(`src/resume_analytics/analyzer.py:53-57`). -/
def techSkills : List String :=
  ["python", "java", "javascript", "react", "node.js", "sql",
   "html", "css", "aws", "docker", "kubernetes", "git",
   "machine learning", "ai", "data science", "analytics"]

/-- `skills.add(s)` on the Python set, modelled as an insertion-ordered
deduplicating list. -/
def insertSkill (acc : List String) (s : String) : List String :=
  if s ∈ acc then acc else acc ++ [s]

/-- Loop body of `_extract_skills` (`src/resume_analytics/analyzer.py:59-68`):
for every token, add `token.text` when its lowercasing is a tech skill, and
when a next token exists add the lowercased bigram when it is a tech skill. -/
def extractSkillsAux : List Token → List String → List String
  | [], acc => acc
  | [t], acc =>
      if t.text.toLower ∈ techSkills then insertSkill acc t.text else acc
  | t :: next :: rest, acc =>
      let acc1 :=
        if t.text.toLower ∈ techSkills then insertSkill acc t.text else acc
      let bigram := (t.text ++ " " ++ next.text).toLower
      let acc2 := if bigram ∈ techSkills then insertSkill acc1 bigram else acc1
      extractSkillsAux (next :: rest) acc2

/-- `ResumeAnalyzer._extract_skills` (`src/resume_analytics/analyzer.py:50-69`). -/
def extractSkills (doc : Doc) : List String :=
  extractSkillsAux doc []

/-- Loop of `_analyze_experience` (`src/resume_analytics/analyzer.py:74-82`):
for a `like_num` token with a successor whose lowercased text contains
`"year"`, take `max` with `int(token.text)` when that parse succeeds
(`ValueError` is swallowed by the `continue`). -/
def analyzeExperienceAux : List Token → ℕ → ℕ
  | t :: next :: rest, acc =>
      let acc' :=
        if t.like_num && strOccursIn "year" next.text.toLower then
          match t.text.toNat? with
          | some n => Nat.max acc n
          | none => acc
        else acc
      analyzeExperienceAux (next :: rest) acc'
  | _, acc => acc

/-- `ResumeAnalyzer._analyze_experience` (`src/resume_analytics/analyzer.py:71-83`). -/
def analyzeExperience (doc : Doc) : ℕ :=
  analyzeExperienceAux doc 0

/-- Claim-side definition: the list of year figures the heuristic is meant
to range over — every value `n` of a numeric token that parses as an
integer and is immediately followed by a token whose lowercased text
contains `"year"`. -/
def yearMentions : Doc → List ℕ
  | t :: next :: rest =>
      (if t.like_num && strOccursIn "year" next.text.toLower then
        match t.text.toNat? with
        | some n => [n]
        | none => []
      else []) ++ yearMentions (next :: rest)
  | _ => []

/-- One entry of the suggestions list
(`src/resume_analytics/analyzer.py:114-141`). -/
structure Suggestion where
  icon : String
  text : String
deriving DecidableEq

/-- `ResumeAnalyzer._generate_suggestions`
(`src/resume_analytics/analyzer.py:109-143`): four thresholded appends and
a fallback entry when the list stayed empty. -/
def generateSuggestions (word_count sentence_count : ℕ)
    (skills : List String) (experience_years : ℕ) : List Suggestion :=
  let s :=
    (if word_count < 300 then
      [⟨"fa-file-text",
        "Add more detail to your resume - aim for at least 300 words"⟩]
    else []) ++
    (if skills.length < 8 then
      [⟨"fa-code",
        "Include more relevant technical skills and technologies"⟩]
    else []) ++
    (if sentence_count < 10 then
      [⟨"fa-list",
        "Add more achievements and responsibilities from your experience"⟩]
    else []) ++
    (if experience_years < 2 then
      [⟨"fa-briefcase",
        "Highlight any internships, projects, or relevant coursework"⟩]
    else [])
  if s.isEmpty then
    [⟨"fa-star",
      "Your resume looks great! Consider adding more quantifiable achievements"⟩]
  else s

/-- The `metrics` sub-dictionary of the `analyze_resume` result
(`src/resume_analytics/analyzer.py:37-43`). -/
structure Metrics where
  word_count : ℕ
  sentence_count : ℕ
  skills_count : ℕ
  experience_years : ℕ
  profile_score : ℤ
deriving DecidableEq

/-- The dictionary returned by `analyze_resume`
(`src/resume_analytics/analyzer.py:35-48`). -/
structure AnalyzeOutput where
  timestamp : String
  metrics : Metrics
  skills : List String
  suggestions : List Suggestion
deriving DecidableEq

/-- `ResumeAnalyzer.analyze_resume` (`src/resume_analytics/analyzer.py:16-48`).
The spaCy pipeline `self.nlp` is the explicit argument `nlp`, returning the
token sequence and the sentence count of a text; `datetime.now().isoformat()`
is the explicit clock argument `now`. -/
def analyzeResume (nlp : String → Doc × ℕ) (now : String)
    (resume_text : String) : AnalyzeOutput :=
  let doc := (nlp resume_text).1
  let sentence_count := (nlp resume_text).2
  let word_count := (splitWords resume_text).length
  let skills := extractSkills doc
  let experience_years := analyzeExperience doc
  let profile_score :=
    calculateProfileScore word_count sentence_count skills.length
      experience_years
  { timestamp := now,
    metrics := ⟨word_count, sentence_count, skills.length, experience_years,
      profile_score⟩,
    skills := skills,
    suggestions :=
      generateSuggestions word_count sentence_count skills experience_years }

/-- `FILE_TYPES['PDF']` (`src/app.py:62`). -/
def PDF_MIME : String := "application/pdf"

/-- `FILE_TYPES['DOCX']` (`src/app.py:63`). -/
def DOCX_MIME : String :=
  "application/vnd.openxmlformats-officedocument.wordprocessingml.document"

/-- `ResumeApp._extract_text_from_file` (`src/app.py:445-467`). The three
`Option String` arguments model the fallible conversions the branches call:
`extract_text_from_pdf`, `extract_text_from_docx`, and
`uploaded_file.getvalue().decode()`; `none` is a raised exception, which
the surrounding `try/except` turns into the returned empty string. -/
def extractTextFromFile (mime : String)
    (pdfText docxText rawDecoded : Option String) : String :=
  if mime = PDF_MIME then pdfText.getD ""
  else if mime = DOCX_MIME then docxText.getD ""
  else rawDecoded.getD ""

/-- The document types of the spec's classifier. -/
inductive DocType where
  | resume
  | cover_letter
  | other
  | unknown
deriving DecidableEq

/-- A role profile, as the configuration catalog supplies it. -/
structure RoleProfile where
  role_name : String
  category : String
  description : String
  required_skills : List String
deriving DecidableEq

/-- The keyword-match report of the matcher. -/
structure KeywordMatchResult where
  score : ℤ
  matched_skills : List String
  missing_skills : List String
deriving DecidableEq

/-- Modelled from the spec: the minimum-length threshold of the document
classifier of `utils/resume_analyzer.py`, which is absent from the
repository snapshot ("a configuration constant, not hard-coded magic"). -/
def MIN_TEXT_LENGTH : ℕ := 20

/-- Modelled from the spec: the resume-section keywords the classifier of
the absent `utils/resume_analyzer.py` scans for. -/
def resumeSectionKeywords : List String :=
  ["experience", "education", "skills", "projects"]

/-- Modelled from the spec: the cover-letter salutation patterns the
classifier of the absent `utils/resume_analyzer.py` scans for. -/
def coverLetterKeywords : List String :=
  ["dear hiring manager", "sincerely"]

/-- Modelled from the spec: the document classifier of the absent
`utils/resume_analyzer.py` — `unknown` below the minimum length, `resume`
when at least two distinct resume-section keywords occur case-insensitively
and no cover-letter salutation dominates, `cover_letter` on a salutation,
`other` otherwise. -/
def classify (text : String) : DocType :=
  if text.length < MIN_TEXT_LENGTH then DocType.unknown
  else
    let t := text.toLower
    let resumeHits :=
      (resumeSectionKeywords.filter (fun k => strOccursIn k t)).length
    let coverHit := coverLetterKeywords.any (fun k => strOccursIn k t)
    if 2 ≤ resumeHits ∧ ¬coverHit then DocType.resume
    else if coverHit then DocType.cover_letter
    else DocType.other

/-- Modelled from the spec: the skill test of the matcher of the absent
`utils/resume_analyzer.py` — case-folded substring membership of the skill
in the text, which also covers multi-word phrases such as
"machine learning". -/
def skillMatches (text skill : String) : Bool :=
  strOccursIn skill.toLower text.toLower

/-- Modelled from the spec: the keyword matcher of the absent
`utils/resume_analyzer.py` — partitions `required_skills` into matched and
missing by `skillMatches`, keeping original casing, and scores
`(matched / total) * 100` rounded, with 0 for an empty requirement list. -/
def keywordMatch (text : String) (required : List String) :
    KeywordMatchResult :=
  let matched := required.filter (fun s => skillMatches text s)
  let missing := required.filter (fun s => ! skillMatches text s)
  let score : ℤ :=
    if required.length = 0 then 0
    else pyRound (((matched.length : ℚ) / (required.length : ℚ)) * 100)
  ⟨score, matched, missing⟩

/-- The result of the engine's `analyze`: on a non-resume classification
only `document_type` is populated. -/
structure AnalysisResult where
  document_type : DocType
  ats_score : Option ℤ
  keyword_match : Option KeywordMatchResult
deriving DecidableEq

/-- The tokens the spec-modelled engine runs the experience heuristic on:
whitespace words, numeric when they parse as an integer. -/
def specTokens (text : String) : Doc :=
  (splitWords text).map (fun w => ⟨w, (w.toNat?).isSome⟩)

/-- Modelled from the spec: the orchestrator of the absent
`utils/resume_analyzer.py`, parametrised by the matcher and the aggregator
it would call so that "must not invoke" is expressible — classify first,
and on any non-resume type return the partial result carrying only the
document type. -/
def analyzeWith
    (matcher : String → List String → KeywordMatchResult)
    (aggregator : ℕ → ℕ → ℕ → ℤ)
    (text : String) (rp : RoleProfile) : AnalysisResult :=
  let dt := classify text
  if dt = DocType.resume then
    let km := matcher text rp.required_skills
    let word_count := (splitWords text).length
    let experience_years := analyzeExperience (specTokens text)
    { document_type := dt,
      ats_score :=
        some (aggregator word_count km.matched_skills.length experience_years),
      keyword_match := some km }
  else
    { document_type := dt, ats_score := none, keyword_match := none }

/-- Modelled from the spec: `analyze(text, role_profile)` of the absent
`utils/resume_analyzer.py`, instantiating the orchestrator with the keyword
matcher and the profile-score aggregator. -/
def analyze (text : String) (rp : RoleProfile) : AnalysisResult :=
  analyzeWith keywordMatch
    (fun wc matched years => calculateProfileScore wc 0 matched years)
    text rp

/-! ## Helper lemmas -/

theorem floor_le_pyRound (q : ℚ) : ⌊q⌋ ≤ pyRound q := by
  unfold pyRound
  split_ifs <;> omega

theorem pyRound_le_floor_add_one (q : ℚ) : pyRound q ≤ ⌊q⌋ + 1 := by
  unfold pyRound
  split_ifs <;> omega

theorem pyRound_nonneg {q : ℚ} (h : 0 ≤ q) : 0 ≤ pyRound q := by
  have h1 : (0 : ℤ) ≤ ⌊q⌋ := Int.floor_nonneg.mpr h
  have h2 := floor_le_pyRound q
  omega

theorem pyRound_mono {q q' : ℚ} (h : q ≤ q') : pyRound q ≤ pyRound q' := by
  have hf : ⌊q⌋ ≤ ⌊q'⌋ := Int.floor_le_floor h
  rcases lt_or_eq_of_le hf with hlt | heq
  · have h1 := pyRound_le_floor_add_one q
    have h2 := floor_le_pyRound q'
    omega
  · have hr : q - (⌊q⌋ : ℚ) ≤ q' - (⌊q'⌋ : ℚ) := by
      rw [heq]; linarith
    unfold pyRound
    rw [heq] at hr ⊢
    split_ifs <;> first | omega | linarith

theorem wordComponent_eq (wc : ℕ) :
    wordComponent wc = min (((wc : ℚ) / 300) * 25) 25 := by
  unfold wordComponent
  split_ifs with h
  · have h' : (300 : ℚ) ≤ (wc : ℚ) := by exact_mod_cast h
    rw [eq_comm, min_eq_right]
    linarith
  · have h' : (wc : ℚ) < 300 := by exact_mod_cast Nat.lt_of_not_le h
    rw [eq_comm, min_eq_left]
    linarith

theorem skillComponent_eq (ks : ℕ) :
    skillComponent ks = min (((ks : ℚ) / 8) * 35) 35 := by
  unfold skillComponent
  split_ifs with h
  · have h' : (8 : ℚ) ≤ (ks : ℚ) := by exact_mod_cast h
    rw [eq_comm, min_eq_right]
    linarith
  · have h' : (ks : ℚ) < 8 := by exact_mod_cast Nat.lt_of_not_le h
    rw [eq_comm, min_eq_left]
    linarith

theorem expComponent_eq (ey : ℕ) :
    expComponent ey = min (((ey : ℚ) / 5) * 40) 40 := by
  unfold expComponent
  split_ifs with h
  · have h' : (5 : ℚ) ≤ (ey : ℚ) := by exact_mod_cast h
    rw [eq_comm, min_eq_right]
    linarith
  · have h' : (ey : ℚ) < 5 := by exact_mod_cast Nat.lt_of_not_le h
    rw [eq_comm, min_eq_left]
    linarith

theorem wordComponent_nonneg (wc : ℕ) : 0 ≤ wordComponent wc := by
  rw [wordComponent_eq]
  have : (0 : ℚ) ≤ (wc : ℚ) := Nat.cast_nonneg wc
  apply le_min <;> linarith

theorem skillComponent_nonneg (ks : ℕ) : 0 ≤ skillComponent ks := by
  rw [skillComponent_eq]
  have : (0 : ℚ) ≤ (ks : ℚ) := Nat.cast_nonneg ks
  apply le_min <;> linarith

theorem expComponent_nonneg (ey : ℕ) : 0 ≤ expComponent ey := by
  rw [expComponent_eq]
  have : (0 : ℚ) ≤ (ey : ℚ) := Nat.cast_nonneg ey
  apply le_min <;> linarith

theorem wordComponent_mono {a b : ℕ} (h : a ≤ b) :
    wordComponent a ≤ wordComponent b := by
  rw [wordComponent_eq, wordComponent_eq]
  have h' : (a : ℚ) ≤ (b : ℚ) := by exact_mod_cast h
  exact min_le_min (by linarith) le_rfl

theorem skillComponent_mono {a b : ℕ} (h : a ≤ b) :
    skillComponent a ≤ skillComponent b := by
  rw [skillComponent_eq, skillComponent_eq]
  have h' : (a : ℚ) ≤ (b : ℚ) := by exact_mod_cast h
  exact min_le_min (by linarith) le_rfl

theorem expComponent_mono {a b : ℕ} (h : a ≤ b) :
    expComponent a ≤ expComponent b := by
  rw [expComponent_eq, expComponent_eq]
  have h' : (a : ℚ) ≤ (b : ℚ) := by exact_mod_cast h
  exact min_le_min (by linarith) le_rfl

/-! ## Claims -/

/-- C1: for all non-negative inputs, `_calculate_profile_score` equals the
spec's formula — the sum of the three proportional components, each capped
at 25/35/40 at targets 300 words, 8 skills, 5 years, the total rounded to
an integer and clamped to `[0, 100]`. -/
theorem profileScore_eq_spec_formula
    (word_count sentence_count skills_count experience_years : ℕ) :
    calculateProfileScore word_count sentence_count skills_count
      experience_years =
    specAtsScore word_count skills_count experience_years := by
  unfold calculateProfileScore specAtsScore
  rw [← wordComponent_eq, ← skillComponent_eq, ← expComponent_eq]
  rw [max_eq_right]
  apply le_min _ (by norm_num)
  apply pyRound_nonneg
  have h1 := wordComponent_nonneg word_count
  have h2 := skillComponent_nonneg skills_count
  have h3 := expComponent_nonneg experience_years
  linarith

/-- C9: the profile score ignores the sentence count — the `sentence_count`
parameter of `_calculate_profile_score` is dead. -/
theorem profileScore_ignores_sentence_count
    (word_count s1 s2 skills_count experience_years : ℕ) :
    calculateProfileScore word_count s1 skills_count experience_years =
    calculateProfileScore word_count s2 skills_count experience_years := rfl

/-- C5: the aggregated score is monotone non-decreasing in word count,
skills count and experience years independently, and each component sits at
its cap from its target onward. -/
theorem profileScore_monotone_and_capped
    (wc wc' sc ks ks' ey ey' : ℕ)
    (hw : wc ≤ wc') (hk : ks ≤ ks') (he : ey ≤ ey') :
    calculateProfileScore wc sc ks ey ≤ calculateProfileScore wc' sc ks ey ∧
    calculateProfileScore wc sc ks ey ≤ calculateProfileScore wc sc ks' ey ∧
    calculateProfileScore wc sc ks ey ≤ calculateProfileScore wc sc ks ey' ∧
    (300 ≤ wc → wordComponent wc = 25) ∧
    (8 ≤ ks → skillComponent ks = 35) ∧
    (5 ≤ ey → expComponent ey = 40) := by
  refine ⟨?_, ?_, ?_, ?_, ?_, ?_⟩
  · unfold calculateProfileScore
    refine min_le_min (pyRound_mono ?_) le_rfl
    have := wordComponent_mono hw
    linarith
  · unfold calculateProfileScore
    refine min_le_min (pyRound_mono ?_) le_rfl
    have := skillComponent_mono hk
    linarith
  · unfold calculateProfileScore
    refine min_le_min (pyRound_mono ?_) le_rfl
    have := expComponent_mono he
    linarith
  · intro h; unfold wordComponent; rw [if_pos h]
  · intro h; unfold skillComponent; rw [if_pos h]
  · intro h; unfold expComponent; rw [if_pos h]

/-- Witness for C5 at word counts 300 ≤ 3000, skill counts 8 ≤ 80, years
5 ≤ 50. -/
theorem profileScore_monotone_and_capped_witness :
    calculateProfileScore 300 1 8 5 ≤ calculateProfileScore 3000 1 8 5 ∧
    calculateProfileScore 300 1 8 5 ≤ calculateProfileScore 300 1 80 5 ∧
    calculateProfileScore 300 1 8 5 ≤ calculateProfileScore 300 1 8 50 ∧
    (300 ≤ 300 → wordComponent 300 = 25) ∧
    (8 ≤ 8 → skillComponent 8 = 35) ∧
    (5 ≤ 5 → expComponent 5 = 40) :=
  profileScore_monotone_and_capped 300 3000 1 8 80 5 50
    (by decide) (by decide) (by decide)

/-- Helper: appending a fallback entry when the list is empty always leaves
at least one entry. -/
theorem length_pos_of_fallback (f : Suggestion) (l : List Suggestion) :
    1 ≤ (if l.isEmpty then [f] else l).length := by
  cases l <;> simp

/-- C10: `_generate_suggestions` always returns at least one suggestion —
the `if not suggestions` fallback fires exactly when every threshold was
met. -/
theorem generateSuggestions_nonempty (word_count sentence_count : ℕ)
    (skills : List String) (experience_years : ℕ) :
    1 ≤ (generateSuggestions word_count sentence_count skills
      experience_years).length := by
  unfold generateSuggestions
  exact length_pos_of_fallback _ _

/-- Helper: the experience loop computes the running maximum of the year
mentions still ahead of it. -/
theorem analyzeExperienceAux_eq (l : List Token) :
    ∀ acc : ℕ, analyzeExperienceAux l acc =
      Nat.max acc ((yearMentions l).foldr Nat.max 0) := by
  induction l with
  | nil => intro acc; simp [analyzeExperienceAux, yearMentions]
  | cons t rest ih =>
    cases rest with
    | nil => intro acc; simp [analyzeExperienceAux, yearMentions]
    | cons next rest' =>
      intro acc
      simp only [analyzeExperienceAux, yearMentions]
      by_cases h : (t.like_num && strOccursIn "year" next.text.toLower) = true
      · rw [if_pos h, if_pos h]
        cases hn : t.text.toNat? with
        | none => simp only [hn, ih, List.nil_append]
        | some n =>
          simp only [hn, ih, List.cons_append, List.nil_append,
            List.foldr_cons]
          exact Nat.max_assoc acc n _
      · rw [if_neg h, if_neg h]
        simp only [ih, List.nil_append]

/-- C7: `_analyze_experience` returns the maximum over all year mentions —
integer tokens flagged numeric whose successor token contains "year"
case-insensitively — and hence 0 when there is no such mention (the fold
over the empty list). -/
theorem analyzeExperience_eq_max_year_mentions (doc : Doc) :
    analyzeExperience doc = (yearMentions doc).foldr Nat.max 0 := by
  unfold analyzeExperience
  rw [analyzeExperienceAux_eq]
  exact Nat.zero_max _

/-- C2: the keyword matcher partitions the required skills — a skill is
required exactly when it lands in `matched_skills` or in `missing_skills`,
never in both; membership in the output lists is membership in
`required` itself, so the original casing is preserved. -/
theorem keywordMatch_partitions_required (text : String)
    (required : List String) (s : String) :
    ((s ∈ (keywordMatch text required).matched_skills ∨
      s ∈ (keywordMatch text required).missing_skills) ↔ s ∈ required) ∧
    ¬(s ∈ (keywordMatch text required).matched_skills ∧
      s ∈ (keywordMatch text required).missing_skills) := by
  unfold keywordMatch
  simp only [List.mem_filter, Bool.not_eq_true]
  by_cases h : skillMatches text s = true <;> simp [h]

/-- C4: the keyword-match score is `(matched / total) * 100` rounded to the
nearest integer, and the defined value 0 when the required list is
empty. -/
theorem keywordMatch_score_formula (text : String)
    (required : List String) :
    (keywordMatch text required).score =
      if required.length = 0 then 0
      else pyRound
        ((((required.filter (fun s => skillMatches text s)).length : ℚ) /
          (required.length : ℚ)) * 100) := rfl

/-- C3: when the classification is not `resume`, `analyze` returns the
partial result carrying only the document type (`ats_score` and
`keyword_match` stay `none`), the result does not depend on which matcher
or aggregator the orchestrator was given (so neither is invoked), and
`analyze` is total — it returns a result for every text and profile. -/
theorem analyze_rejects_without_scoring (text : String) (rp : RoleProfile)
    (h : classify text ≠ DocType.resume) :
    (analyze text rp).document_type = classify text ∧
    (analyze text rp).ats_score = none ∧
    (analyze text rp).keyword_match = none ∧
    (∀ m₁ m₂ a₁ a₂, analyzeWith m₁ a₁ text rp = analyzeWith m₂ a₂ text rp) ∧
    (∀ t r, ∃ res, analyze t r = res) := by
  refine ⟨?_, ?_, ?_, ?_, fun t r => ⟨analyze t r, rfl⟩⟩ <;>
    first
      | (unfold analyze analyzeWith; rw [if_neg h])
      | (intro m₁ m₂ a₁ a₂; unfold analyzeWith; rw [if_neg h, if_neg h])

/-- Witness for C3 on the empty text (classified `unknown`) and a concrete
role profile. -/
theorem analyze_rejects_without_scoring_witness :
    (analyze "" ⟨"r", "c", "d", ["python"]⟩).document_type = classify "" ∧
    (analyze "" ⟨"r", "c", "d", ["python"]⟩).ats_score = none ∧
    (analyze "" ⟨"r", "c", "d", ["python"]⟩).keyword_match = none ∧
    (∀ m₁ m₂ a₁ a₂, analyzeWith m₁ a₁ "" ⟨"r", "c", "d", ["python"]⟩ =
      analyzeWith m₂ a₂ "" ⟨"r", "c", "d", ["python"]⟩) ∧
    (∀ t r, ∃ res, analyze t r = res) :=
  analyze_rejects_without_scoring "" ⟨"r", "c", "d", ["python"]⟩ (by decide)

/-- C6 is false on the code: `_extract_text_from_file` does not fail with
`UnsupportedFormat` on an unrecognized MIME type — for declared type
`"text/plain"` with bytes that decode to `"hello"` it silently returns the
decoded text. -/
theorem extractText_unsupported_counterexample :
    extractTextFromFile "text/plain" none none (some "hello") = "hello" ∧
    "hello" ≠ "" := by
  constructor
  · rfl
  · decide

/-- C6 amended: for a MIME type that is neither PDF nor DOCX,
`_extract_text_from_file` falls back to decoding the raw bytes as text,
returning the decoded string, or the empty string when decoding raises. -/
theorem extractText_fallback_decodes (mime : String)
    (pdfText docxText rawDecoded : Option String)
    (h1 : mime ≠ PDF_MIME) (h2 : mime ≠ DOCX_MIME) :
    extractTextFromFile mime pdfText docxText rawDecoded =
      rawDecoded.getD "" := by
  unfold extractTextFromFile
  rw [if_neg h1, if_neg h2]

/-- Witness for the amended C6 at the MIME type `"application/json"`. -/
theorem extractText_fallback_decodes_witness :
    extractTextFromFile "application/json" none none (some "x") =
      (some "x").getD "" :=
  extractText_fallback_decodes "application/json" none none (some "x")
    (by decide) (by decide)

/-- C8 is false on the code: `analyze_resume` stamps
`datetime.now().isoformat()` into the result, so two runs on the same text
that read different clock values return results that are not equal in
every field. -/
theorem analyzeResume_timestamp_counterexample :
    analyzeResume (fun _ => ([], 0)) "2024-01-01T00:00:00" "" ≠
    analyzeResume (fun _ => ([], 0)) "2024-01-01T00:00:01" "" := by
  intro h
  have h' := congrArg AnalyzeOutput.timestamp h
  simp [analyzeResume] at h'

/-- C8 amended: apart from the timestamp field, which records the wall
clock of the run, `analyze_resume` is a deterministic function of its text
(given the fixed NLP pipeline) — two runs agree on the metrics, the skills
and the suggestions — and re-running the classifier on the same text
yields the same document type. -/
theorem analyzeResume_deterministic_except_timestamp
    (nlp : String → Doc × ℕ) (now₁ now₂ text : String) :
    (analyzeResume nlp now₁ text).metrics =
      (analyzeResume nlp now₂ text).metrics ∧
    (analyzeResume nlp now₁ text).skills =
      (analyzeResume nlp now₂ text).skills ∧
    (analyzeResume nlp now₁ text).suggestions =
      (analyzeResume nlp now₂ text).suggestions ∧
    classify text = classify text :=
  ⟨rfl, rfl, rfl, rfl⟩

end AiQuickScreener
